import Mathlib

/-!
Verification of the glucose-model training pipeline
(`software/train_model.py`) against its specification.

The pipeline's numeric core is embedded shallowly over `ℚ`:
records are structures, pandas data frames are lists of records,
and every stage of `preprocess_data`, `train_model`,
`save_coefficients` and the clinical-accuracy computation of `main`
is a computable Lean function mirroring the corresponding Python.
-/

namespace GlucoseTrain

/-- A raw input row as `preprocess_data` receives it: `ratio`,
`variability` and `slope` may be missing (NaN), `glucose` is present
(rows lacking it were dropped by `load_data`). -/
structure RawRecord where
  timestamp : ℚ
  ratio : Option ℚ
  variability : Option ℚ
  slope : Option ℚ
  glucose : ℚ
deriving DecidableEq

/-- A row after median imputation: all four signal columns present. -/
structure CleanRecord where
  timestamp : ℚ
  ratio : ℚ
  variability : ℚ
  slope : ℚ
  glucose : ℚ
deriving DecidableEq

/-- A row after feature derivation: the two derived columns
`pulse_rate` and `acdc_ratio` have been added. -/
structure Record where
  timestamp : ℚ
  ratio : ℚ
  variability : ℚ
  slope : ℚ
  glucose : ℚ
  pulse_rate : ℚ
  acdc_ratio : ℚ
deriving DecidableEq

/-- Insert a rational into a sorted list (ascending). -/
def insertSorted (x : ℚ) : List ℚ → List ℚ
  | [] => [x]
  | y :: ys => if x ≤ y then x :: y :: ys else y :: insertSorted x ys

/-- Ascending insertion sort, used to model the sorting pandas
performs when computing a quantile. -/
def sortQ : List ℚ → List ℚ
  | [] => []
  | x :: xs => insertSorted x (sortQ xs)

/-- Pandas `Series.quantile(q)` with its default linear interpolation:
at fractional position `h = q*(n-1)` of the sorted data, interpolate
between the neighbouring order statistics. -/
def quantileLI (xs : List ℚ) (q : ℚ) : ℚ :=
  match sortQ xs with
  | [] => 0
  | s@(_ :: _) =>
    let n := s.length
    let h : ℚ := q * ((n : ℚ) - 1)
    let i : ℕ := h.floor.toNat
    let lo := s.getD i 0
    let hi := s.getD (min (i + 1) (n - 1)) 0
    lo + (h - (i : ℚ)) * (hi - lo)

/-- Median (`np.median`) over the present (non-missing) values, as
`SimpleImputer(strategy='median')` computes it: the 0.5 quantile. -/
def medianOf (xs : List ℚ) : ℚ := quantileLI xs (1/2)

/-- The median-imputation stage of `preprocess_data`: each of
`ratio`, `variability`, `slope` has its missing entries replaced by
that column's median over the present values of the dataset. -/
def impute_median (df : List RawRecord) : List CleanRecord :=
  let mr := medianOf (df.filterMap (·.ratio))
  let mv := medianOf (df.filterMap (·.variability))
  let ms := medianOf (df.filterMap (·.slope))
  df.map fun r =>
    { timestamp := r.timestamp
      ratio := r.ratio.getD mr
      variability := r.variability.getD mv
      slope := r.slope.getD ms
      glucose := r.glucose }

/-- The filter `data = data[(data['glucose'] >= 40) & (data['glucose'] <= 400)]`. -/
def physiological_filter (df : List CleanRecord) : List CleanRecord :=
  df.filter fun r => decide (40 ≤ r.glucose) && decide (r.glucose ≤ 400)

/-- Denominator of `pulse_rate = 60 / (variability + 1e-6)`:
guarded by the `1e-6` epsilon. -/
def pulse_rate_denominator (r : CleanRecord) : ℚ :=
  r.variability + 1/1000000

/-- Denominator of `acdc_ratio = variability / ratio`: the bare
`ratio` column, with no epsilon guard. -/
def acdc_ratio_denominator (r : CleanRecord) : ℚ :=
  r.ratio

/-- Feature derivation applied row-wise:
`pulse_rate = 60 / (variability + 1e-6)`,
`acdc_ratio = variability / ratio`. -/
def deriveRecord (r : CleanRecord) : Record :=
  { timestamp := r.timestamp
    ratio := r.ratio
    variability := r.variability
    slope := r.slope
    glucose := r.glucose
    pulse_rate := 60 / pulse_rate_denominator r
    acdc_ratio := r.variability / acdc_ratio_denominator r }

/-- The feature-derivation stage of `preprocess_data`. -/
def derive_features (df : List CleanRecord) : List Record :=
  df.map deriveRecord

/-- One step of the loop body of `remove_outliers`: compute Q1, Q3
and the IQR of one column over the current frame and keep the rows
inside `[Q1 - 1.5*IQR, Q3 + 1.5*IQR]`. -/
def filterColIQR (col : Record → ℚ) (df : List Record) : List Record :=
  let q1 := quantileLI (df.map col) (1/4)
  let q3 := quantileLI (df.map col) (3/4)
  let iqr := q3 - q1
  df.filter fun r =>
    decide (q1 - (3/2) * iqr ≤ col r) && decide (col r ≤ q3 + (3/2) * iqr)

/-- The call `remove_outliers(data, ['ratio', 'variability', 'slope', 'glucose'])`:
the sequential per-column IQR filter, bounds recomputed on the
progressively trimmed frame, in the source's column order. -/
def remove_outliers (df : List Record) : List Record :=
  filterColIQR (·.glucose)
    (filterColIQR (·.slope)
      (filterColIQR (·.variability)
        (filterColIQR (·.ratio) df)))

/-- The whole of `preprocess_data`: imputation, physiological filter, feature
derivation, sequential IQR outlier removal, in source order. -/
def preprocess_data (df : List RawRecord) : List Record :=
  remove_outliers (derive_features (physiological_filter (impute_median df)))

/-! ## DatasetLoader (`load_data`, directory branch) -/

/-- A parsed tabular file; `pd.concat` is list concatenation. -/
abbrev DataFrame := List RawRecord

/-- Directory branch of `load_data`: each file's parse either yields
a frame (`some`) or raised and was skipped (`none`); the successes
are accumulated in order, and if none succeeded the load raises
`"No valid CSV files found in directory"`; otherwise the frames are
concatenated. -/
def load_data_directory (parses : List (Option DataFrame)) :
    Except String DataFrame :=
  let dfs := parses.filterMap id
  if dfs.isEmpty then .error "No valid CSV files found in directory"
  else .ok dfs.flatten

/-! ## ModelFactory (`train_model`) -/

/-- The estimator constructed by `train_model`, with the constructor
arguments the source passes. -/
inductive ModelSpec where
  | linearRegression : ModelSpec
  | randomForest (n_estimators max_depth random_state : ℕ) : ModelSpec
  | gradientBoosting (n_estimators : ℕ) (learning_rate : ℚ)
      (max_depth random_state : ℕ) : ModelSpec
deriving DecidableEq

/-- Dispatch of `train_model` on `model_type`: the three recognized
names construct their estimator; any other name raises
`ValueError(f"Unknown model type: \x7bmodel_type\x7d")`. -/
def train_model (model_type : String) : Except String ModelSpec :=
  if model_type = "linear" then
    .ok .linearRegression
  else if model_type = "random_forest" then
    .ok (.randomForest 100 5 42)
  else if model_type = "gradient_boosting" then
    .ok (.gradientBoosting 100 (1/10) 3 42)
  else
    .error ("Unknown model type: " ++ model_type)

/-- Whether the list `as` is an initial segment of `bs`. -/
def startsWithChars : List Char → List Char → Bool
  | [], _ => true
  | _ :: _, [] => false
  | a :: as, b :: bs => a = b && startsWithChars as bs

/-- Whether `needle` occurs contiguously inside the second list. -/
def containsChars (needle : List Char) : List Char → Bool
  | [] => startsWithChars needle []
  | hay@(_ :: rest) => startsWithChars needle hay || containsChars needle rest

/-- Substring occurrence on strings. -/
def strContains (needle hay : String) : Bool :=
  containsChars needle.data hay.data

/-! ## Evaluator / `main`: clinical accuracy -/

/-- The mean `np.mean(np.abs(actuals - predictions) < tol)`: the fraction of
(reference, prediction) pairs whose absolute difference is strictly
below `tol`.  (In the source the two `np.mean(` calls at lines
294-295 are missing their closing parenthesis; the intended
expression is unambiguous and is what is modelled here.) -/
def clinical_accuracy (tol : ℚ) (pairs : List (ℚ × ℚ)) : ℚ :=
  ((pairs.countP fun p => decide (|p.1 - p.2| < tol)) : ℚ) / (pairs.length : ℚ)

/-! ## ArtifactExporter (`save_coefficients`) -/

/-- The feature-column list `main` passes to `save_coefficients`:
`['ratio', 'variability', 'slope', 'pulse_rate', 'acdc_ratio']`. -/
def featureColumns : List String :=
  ["ratio", "variability", "slope", "pulse_rate", "acdc_ratio"]

/-- The array `np.insert(model.coef_, 0, model.intercept_)` zipped with
`['intercept'] + features.tolist()`: the rows of the coefficient
data frame, intercept first, then the features in feature order. -/
def coeff_table (intercept : ℚ) (coef : List ℚ) (features : List String) :
    List (String × ℚ) :=
  ("intercept", intercept) :: features.zip coef

/-- Decimal digit character for `n % 10`. -/
def digitChar (n : ℕ) : Char := Char.ofNat (48 + n % 10)

/-- Decimal digits of a natural number, most significant first. -/
def natDigits (n : ℕ) : List Char :=
  if h : n < 10 then [digitChar n]
  else natDigits (n / 10) ++ [digitChar (n % 10)]
decreasing_by
  exact Nat.div_lt_self (by omega) (by omega)

/-- The six fractional digits of a value already scaled and rounded
to an integer count `n < 10^6` of millionths, zero-padded. -/
def frac6 (n : ℕ) : List Char :=
  [digitChar (n / 100000), digitChar (n / 10000), digitChar (n / 1000),
   digitChar (n / 100), digitChar (n / 10), digitChar n]

/-- Python fixed-point format `f"\x7bx:.6f\x7d"` as a character
list: optional sign, the integer digits, a point, then exactly six
fractional digits (the value rounded to the nearest millionth). -/
def fixed6Chars (q : ℚ) : List Char :=
  (if q < 0 then ['-'] else [])
    ++ natDigits ((round (|q| * 1000000)) / 1000000).toNat
    ++ ['.'] ++ frac6 ((round (|q| * 1000000)) % 1000000).toNat

/-- Python fixed-point format `f"\x7bx:.6f\x7d"` as a string. -/
def fixed6 (q : ℚ) : String := ⟨fixed6Chars q⟩

/-- One line of the Arduino header:
`f"const float \x7brow['feature']\x7d = \x7brow['coefficient']:.6f\x7d;"`. -/
def constLine (row : String × ℚ) : String :=
  "const float " ++ row.1 ++ " = " ++ fixed6 row.2 ++ ";"

/-- The Arduino-compatible header written for linear models, as a
list of lines: include-once guards around one constant definition
per coefficient row. -/
def header_file (rows : List (String × ℚ)) : List String :=
  ["#ifndef MODEL_COEFFICIENTS_H", "#define MODEL_COEFFICIENTS_H", ""]
    ++ rows.map constLine ++ ["", "#endif"]

/-- The join `os.path.join(output_dir, name)`. -/
def joinPath (dir name : String) : String := dir ++ "/" ++ name

/-- The CSV filename `f"\x7bmodel_name\x7d_coeff_\x7btimestamp\x7d.csv"`. -/
def coeff_filename (model_name timestamp : String) : String :=
  model_name ++ "_coeff_" ++ timestamp ++ ".csv"

/-- The fixed Arduino header filename `model_coefficients.h`
(note: no timestamp component). -/
def header_filename : String := "model_coefficients.h"

/-- The joblib filename `f"\x7bmodel_name\x7d_\x7btimestamp\x7d.joblib"`. -/
def joblib_filename (model_name timestamp : String) : String :=
  model_name ++ "_" ++ timestamp ++ ".joblib"

/-- The `isinstance` dispatch of `save_coefficients`:
`LinearRegression` versus the two tree-ensemble regressors. -/
inductive ModelKind where
  | linear : ModelKind
  | ensemble : ModelKind
deriving DecidableEq

/-- Result of one `save_coefficients` call: the files it wrote, in
order, and the path it returned. -/
structure SaveResult where
  written : List String
  returned : String
deriving DecidableEq

/-- The exporter `save_coefficients`: computes `filepath` from the model name and
timestamp; for linear models writes the coefficient CSV there and the
header at the fixed `model_coefficients.h` path; for ensemble models
writes only the joblib artifact; in every case returns `filepath`. -/
def save_coefficients (kind : ModelKind) (output_dir model_name timestamp : String) :
    SaveResult :=
  let filepath := joinPath output_dir (coeff_filename model_name timestamp)
  match kind with
  | .linear =>
    { written := [filepath, joinPath output_dir header_filename]
      returned := filepath }
  | .ensemble =>
    { written := [joinPath output_dir (joblib_filename model_name timestamp)]
      returned := filepath }

/-! ## Splitter/Scaler (`main`, lines 275-277) -/

/-- Mean of one feature column, as `StandardScaler.fit` computes it. -/
def colMean (xs : List ℚ) : ℚ := xs.sum / (xs.length : ℚ)

/-- Biased (population) variance of one feature column, as
`StandardScaler.fit` computes it (`ddof = 0`). -/
def colVar (xs : List ℚ) : ℚ :=
  ((xs.map fun x => (x - colMean xs) ^ 2).sum) / (xs.length : ℚ)

/-- Scaler fit `StandardScaler().fit`: per-column mean and variance. -/
def scaler_fit (cols : List (List ℚ)) : List (ℚ × ℚ) :=
  cols.map fun c => (colMean c, colVar c)

/-- The scaler parameters as `main` obtains them:
`scaler.fit_transform(X_train)` fits on the training columns alone;
the test columns are passed through `scaler.transform` only, so they
appear here as an argument that the fit never reads. -/
def main_scaler_params (xtrainCols _xtestCols : List (List ℚ)) :
    List (ℚ × ℚ) :=
  scaler_fit xtrainCols

/-- Characters strictly after the first `'.'` of a string's data
(used to state the six-decimal-place format contract). -/
def charsAfterDot : List Char → List Char
  | [] => []
  | c :: cs => if c = '.' then cs else charsAfterDot cs

/-- A ten-row frame (constant in every column except `ratio`, whose
values are 0..7, 13, 1000) on which the first IQR pass keeps 13
(bounds [-4.5, 13.5], inflated by the 1000 outlier) but a second
pass, with bounds [-4, 12] recomputed on the trimmed data, drops it. -/
def outlierDataset : List Record :=
  ([0, 1, 2, 3, 4, 5, 6, 7, 13, 1000] : List ℚ).map fun x =>
    { timestamp := 0, ratio := x, variability := 1, slope := 1,
      glucose := 100, pulse_rate := 0, acdc_ratio := 0 }

/-! ## Helper lemmas -/

/-- One IQR column pass only removes rows. -/
theorem filterColIQR_sublist (col : Record → ℚ) (df : List Record) :
    (filterColIQR col df).Sublist df := by
  unfold filterColIQR
  exact List.filter_sublist df

/-- The whole sequential IQR filter only removes rows. -/
theorem remove_outliers_sublist (df : List Record) :
    (remove_outliers df).Sublist df := by
  unfold remove_outliers
  exact (filterColIQR_sublist _ _).trans
    ((filterColIQR_sublist _ _).trans
      ((filterColIQR_sublist _ _).trans (filterColIQR_sublist _ _)))

unseal Rat.mul Rat.add Rat.inv Rat.sub in
/-- C1 counterexample: the sequential per-column IQR outlier filter
of `preprocess_data` is not idempotent; on `outlierDataset` the
second application removes a further row (ratio 13). -/
theorem C1_remove_outliers_not_idempotent :
    remove_outliers (remove_outliers outlierDataset) ≠
      remove_outliers outlierDataset := by
  decide

/-- C1 amended: a second application of the outlier-removal stage
yields a sublist of (at most the rows of) a single application — the
filter is contractive — but it is not idempotent in general, since
the quartile bounds are recomputed on the already-trimmed data. -/
theorem C1_remove_outliers_contractive (df : List Record) :
    (remove_outliers (remove_outliers df)).Sublist (remove_outliers df) :=
  remove_outliers_sublist (remove_outliers df)

/-- C2: every row of the `preprocess_data` output has its glucose
value inside [40, 400]: the physiological filter enforces the range
and the later stages (feature derivation, outlier removal) never
alter a glucose value nor add a row. -/
theorem C2_preprocess_glucose_in_range (df : List RawRecord) (r : Record)
    (h : r ∈ preprocess_data df) : 40 ≤ r.glucose ∧ r.glucose ≤ 400 := by
  unfold preprocess_data at h
  have h1 : r ∈ derive_features (physiological_filter (impute_median df)) :=
    (remove_outliers_sublist _).subset h
  unfold derive_features at h1
  obtain ⟨c, hc, rfl⟩ := List.mem_map.mp h1
  unfold physiological_filter at hc
  have h2 := (List.mem_filter.mp hc).2
  simp only [Bool.and_eq_true, decide_eq_true_eq] at h2
  exact ⟨h2.1, h2.2⟩

unseal Rat.mul Rat.add Rat.inv Rat.sub in
/-- Witness for C2: a one-row dataset whose row survives the whole
of `preprocess_data`. -/
theorem C2_preprocess_glucose_in_range_witness :
    40 ≤ (Record.mk 0 1 1 1 100 (60000000/1000001) 1).glucose ∧
      (Record.mk 0 1 1 1 100 (60000000/1000001) 1).glucose ≤ 400 :=
  C2_preprocess_glucose_in_range
    [RawRecord.mk 0 (some 1) (some 1) (some 1) 100]
    (Record.mk 0 1 1 1 100 (60000000/1000001) 1) (by decide)

unseal Rat.mul Rat.add Rat.inv Rat.sub in
/-- C10: the record with ratio 0 (and glucose 100) survives the
physiological filter, its `acdc_ratio` denominator (the bare `ratio`
column) is zero, while its `pulse_rate` denominator carries the
`1e-6` guard and is nonzero. -/
theorem C10_acdc_ratio_division_unguarded :
    physiological_filter [CleanRecord.mk 0 0 0 0 100] =
        [CleanRecord.mk 0 0 0 0 100] ∧
      acdc_ratio_denominator (CleanRecord.mk 0 0 0 0 100) = 0 ∧
      pulse_rate_denominator (CleanRecord.mk 0 0 0 0 100) ≠ 0 :=
  ⟨by decide, rfl, by decide⟩

/-- C3 counterexample: the unrecognized name `"svm"` is rejected,
but the error message does not name any of the three supported
choices (the claim says it names all three). -/
theorem C3_error_message_lacks_choices :
    train_model "svm" = .error "Unknown model type: svm" ∧
      strContains "linear" "Unknown model type: svm" = false ∧
      strContains "random_forest" "Unknown model type: svm" = false ∧
      strContains "gradient_boosting" "Unknown model type: svm" = false := by
  refine ⟨by rfl, by decide, by decide, by decide⟩

/-- C3 amended: each of the three recognized names constructs (and
fits) its estimator without error, and every other name raises an
error — whose message is exactly `"Unknown model type: "` followed
by the offending name, without listing the supported choices. -/
theorem C3_train_model_dispatch (model_type : String) :
    (model_type = "linear" →
      train_model model_type = .ok .linearRegression) ∧
    (model_type = "random_forest" →
      train_model model_type = .ok (.randomForest 100 5 42)) ∧
    (model_type = "gradient_boosting" →
      train_model model_type = .ok (.gradientBoosting 100 (1/10) 3 42)) ∧
    (model_type ≠ "linear" → model_type ≠ "random_forest" →
      model_type ≠ "gradient_boosting" →
      train_model model_type = .error ("Unknown model type: " ++ model_type)) := by
  refine ⟨?_, ?_, ?_, ?_⟩
  · intro h; subst h; rfl
  · intro h; subst h; rfl
  · intro h; subst h; rfl
  · intro h1 h2 h3
    unfold train_model
    rw [if_neg h1, if_neg h2, if_neg h3]

/-- Witness for C3: a recognized and an unrecognized name. -/
theorem C3_train_model_dispatch_witness :
    train_model "linear" = .ok .linearRegression ∧
      train_model "svm" = .error ("Unknown model type: " ++ "svm") :=
  ⟨(C3_train_model_dispatch "linear").1 rfl,
   (C3_train_model_dispatch "svm").2.2.2 (by decide) (by decide) (by decide)⟩

/-- C4: in directory mode, individual parse failures are skipped and
loading continues: whenever at least one file parses, the load
succeeds with the concatenation of the successfully parsed frames;
when zero files parse (in particular for an empty directory) it
fails with the `"No valid CSV files found in directory"` error. -/
theorem C4_load_data_directory_recovery (parses : List (Option DataFrame)) :
    (parses.filterMap id ≠ [] →
      load_data_directory parses = .ok (parses.filterMap id).flatten) ∧
    (parses.filterMap id = [] →
      load_data_directory parses =
        .error "No valid CSV files found in directory") := by
  constructor
  · intro h
    unfold load_data_directory
    rw [if_neg]
    simpa using h
  · intro h
    unfold load_data_directory
    rw [if_pos]
    simpa using h

/-- Witness for C4: one failing file next to one parsable file is
recovered; an empty directory fails with the no-valid-files error. -/
theorem C4_load_data_directory_recovery_witness :
    load_data_directory [some [RawRecord.mk 0 none none none 100], none] =
        .ok [RawRecord.mk 0 none none none 100] ∧
      load_data_directory ([] : List (Option DataFrame)) =
        .error "No valid CSV files found in directory" := by
  constructor
  · rw [(C4_load_data_directory_recovery
      [some [RawRecord.mk 0 none none none 100], none]).1 (by decide)]
    rfl
  · exact (C4_load_data_directory_recovery []).2 rfl

/-- C5: on any nonempty vector of (reference, prediction) pairs, the
clinical-accuracy fraction at the strict 15 mg/dL tolerance is at
most the fraction at the strict 20 mg/dL tolerance. -/
theorem C5_clinical_accuracy_monotone (pairs : List (ℚ × ℚ))
    (h : pairs ≠ []) :
    clinical_accuracy 15 pairs ≤ clinical_accuracy 20 pairs := by
  unfold clinical_accuracy
  have hlen : (0 : ℚ) < (pairs.length : ℚ) := by
    have : 0 < pairs.length := List.length_pos.mpr h
    exact_mod_cast this
  have hcount : pairs.countP (fun p => decide (|p.1 - p.2| < 15)) ≤
      pairs.countP (fun p => decide (|p.1 - p.2| < 20)) := by
    apply List.countP_mono_left
    intro p _ hp
    simp only [decide_eq_true_eq] at hp ⊢
    linarith
  have hcast : ((pairs.countP fun p => decide (|p.1 - p.2| < 15)) : ℚ) ≤
      ((pairs.countP fun p => decide (|p.1 - p.2| < 20)) : ℚ) := by
    exact_mod_cast hcount
  exact div_le_div_of_nonneg_right hcast hlen.le

unseal Rat.mul Rat.add Rat.inv Rat.sub in
/-- Witness for C5 on a concrete two-point test set. -/
theorem C5_clinical_accuracy_monotone_witness :
    clinical_accuracy 15 [(100, 110), (100, 130)] ≤
      clinical_accuracy 20 [(100, 110), (100, 130)] :=
  C5_clinical_accuracy_monotone [(100, 110), (100, 130)] (by decide)

/-- A decimal digit character is never the decimal point. -/
theorem digitChar_ne_dot (n : ℕ) : digitChar n ≠ '.' := by
  unfold digitChar
  have h : n % 10 < 10 := Nat.mod_lt _ (by norm_num)
  revert h
  generalize n % 10 = k
  intro h
  interval_cases k <;> decide

/-- The decimal expansion of a natural number contains no point. -/
theorem dot_not_mem_natDigits (n : ℕ) : '.' ∉ natDigits n := by
  induction n using Nat.strong_induction_on with
  | _ n ih =>
    rw [natDigits]
    by_cases h10 : n < 10
    · rw [dif_pos h10]
      intro hmem
      exact digitChar_ne_dot n (List.mem_singleton.mp hmem).symm
    · rw [dif_neg h10]
      intro hmem
      rcases List.mem_append.mp hmem with h | h
      · exact ih (n / 10) (Nat.div_lt_self (by omega) (by omega)) h
      · exact digitChar_ne_dot _ (List.mem_singleton.mp h).symm

/-- The sign part of `fixed6Chars` contains no point. -/
theorem dot_not_mem_sign (q : ℚ) :
    '.' ∉ (if q < 0 then ['-'] else ([] : List Char)) := by
  split <;> decide

/-- Skipping a dot-free block leaves `charsAfterDot` unchanged. -/
theorem charsAfterDot_append (a b : List Char) (ha : '.' ∉ a) :
    charsAfterDot (a ++ b) = charsAfterDot b := by
  induction a with
  | nil => rfl
  | cons c cs ih =>
    simp only [List.cons_append, charsAfterDot]
    rw [if_neg fun h => ha (List.mem_cons.mpr (Or.inl h.symm))]
    exact ih fun h => ha (List.mem_cons_of_mem _ h)

/-- The point itself is consumed by `charsAfterDot`. -/
theorem charsAfterDot_cons_dot (l : List Char) :
    charsAfterDot ('.' :: l) = l := by
  simp [charsAfterDot]

/-- A value formatted by `fixed6` carries exactly six characters
after its decimal point. -/
theorem fixed6_six_decimals (q : ℚ) :
    (charsAfterDot (fixed6 q).data).length = 6 := by
  show (charsAfterDot (fixed6Chars q)).length = 6
  unfold fixed6Chars
  rw [List.append_assoc, List.append_assoc]
  rw [charsAfterDot_append _ _ (dot_not_mem_sign q)]
  rw [charsAfterDot_append _ _ (dot_not_mem_natDigits _)]
  rw [List.singleton_append, charsAfterDot_cons_dot]
  rfl

/-- C6: for a fitted linear model over the five derived features
(any coefficient vector of length 5), the exported coefficient
table has exactly 6 rows — intercept first, then the features in
feature order, carrying the corresponding coefficient values — and
the emitted header consists of the include-once guards around one
constant definition per row binding that row's name to its value
formatted with exactly six decimal places. -/
theorem C6_export_linear_coefficients (intercept : ℚ) (coef : List ℚ)
    (h : coef.length = 5) :
    (coeff_table intercept coef featureColumns).length = 6 ∧
    (coeff_table intercept coef featureColumns).map Prod.fst =
      "intercept" :: featureColumns ∧
    (coeff_table intercept coef featureColumns).map Prod.snd =
      intercept :: coef ∧
    header_file (coeff_table intercept coef featureColumns) =
      ["#ifndef MODEL_COEFFICIENTS_H", "#define MODEL_COEFFICIENTS_H", ""]
        ++ (coeff_table intercept coef featureColumns).map
            (fun row => "const float " ++ row.1 ++ " = " ++ fixed6 row.2 ++ ";")
        ++ ["", "#endif"] ∧
    ∀ row ∈ coeff_table intercept coef featureColumns,
      (charsAfterDot (fixed6 row.2).data).length = 6 := by
  refine ⟨?_, ?_, ?_, rfl, ?_⟩
  · simp [coeff_table, featureColumns, List.length_zip, h]
  · simp only [coeff_table, List.map_cons, List.cons.injEq, true_and]
    exact List.map_fst_zip featureColumns coef (by simp [featureColumns, h])
  · simp only [coeff_table, List.map_cons, List.cons.injEq, true_and]
    exact List.map_snd_zip featureColumns coef (by simp [featureColumns, h])
  · intro row _
    exact fixed6_six_decimals row.2

/-- Witness for C6 with a concrete intercept and coefficients. -/
theorem C6_export_linear_coefficients_witness :
    (coeff_table 100 [1, 2, 3, 4, 5] featureColumns).length = 6 :=
  (C6_export_linear_coefficients 100 [1, 2, 3, 4, 5] rfl).1

/-- Strings with equal underlying character lists are equal. -/
theorem string_data_inj {s t : String} (h : s.data = t.data) : s = t := by
  cases s; cases t; exact congrArg String.mk h

/-- C7 counterexample: two linear-model runs with distinct
timestamps both write the Arduino header to the same fixed path
`model_coefficients.h`, so artifact paths do collide across runs. -/
theorem C7_header_path_collision :
    ("20250101_000000" : String) ≠ "20250102_000000" ∧
      joinPath "models/production" header_filename ∈
        (save_coefficients .linear "models/production" "LinearRegression"
          "20250101_000000").written ∧
      joinPath "models/production" header_filename ∈
        (save_coefficients .linear "models/production" "LinearRegression"
          "20250102_000000").written := by
  refine ⟨by decide, by decide, by decide⟩

/-- C7 amended: the timestamped artifacts (the coefficient CSV and
the joblib model) never collide across runs with distinct
timestamps; only the fixed-name Arduino header is shared. -/
theorem C7_timestamped_paths_injective (dir name t₁ t₂ : String)
    (h : t₁ ≠ t₂) :
    joinPath dir (coeff_filename name t₁) ≠
      joinPath dir (coeff_filename name t₂) ∧
    joinPath dir (joblib_filename name t₁) ≠
      joinPath dir (joblib_filename name t₂) := by
  constructor
  · intro heq
    apply h
    have hd := congrArg String.data heq
    simp only [joinPath, coeff_filename, String.data_append,
      List.append_assoc] at hd
    exact string_data_inj (List.append_cancel_right
      (List.append_cancel_left (List.append_cancel_left
        (List.append_cancel_left (List.append_cancel_left hd)))))
  · intro heq
    apply h
    have hd := congrArg String.data heq
    simp only [joinPath, joblib_filename, String.data_append,
      List.append_assoc] at hd
    exact string_data_inj (List.append_cancel_right
      (List.append_cancel_left (List.append_cancel_left
        (List.append_cancel_left (List.append_cancel_left hd)))))

/-- Witness for C7 at two concrete distinct timestamps. -/
theorem C7_timestamped_paths_injective_witness :
    joinPath "models/production"
        (coeff_filename "LinearRegression" "20250101_000000") ≠
      joinPath "models/production"
        (coeff_filename "LinearRegression" "20250102_000000") :=
  (C7_timestamped_paths_injective "models/production" "LinearRegression"
    "20250101_000000" "20250102_000000" (by decide)).1

/-- C8: the standardization transform is fit on the training
columns only — swapping the test subset leaves the fitted per-column
(mean, variance) parameters unchanged, repeated fits on identical
training data agree, and the parameters are exactly the per-column
mean and biased variance of the training data. -/
theorem C8_scaler_fit_train_only (xtrain xtest₁ xtest₂ : List (List ℚ)) :
    main_scaler_params xtrain xtest₁ = main_scaler_params xtrain xtest₂ ∧
      main_scaler_params xtrain xtest₁ = scaler_fit xtrain ∧
      scaler_fit xtrain = xtrain.map (fun c => (colMean c, colVar c)) :=
  ⟨rfl, rfl, rfl⟩

/-- The coefficient-CSV path and the joblib path never coincide
(their lengths always differ by 3). -/
theorem coeff_path_ne_joblib_path (dir name ts : String) :
    joinPath dir (coeff_filename name ts) ≠
      joinPath dir (joblib_filename name ts) := by
  intro h
  have hl := congrArg String.length h
  simp only [joinPath, coeff_filename, joblib_filename,
    String.length_append] at hl
  have e1 : ("/" : String).length = 1 := rfl
  have e2 : ("_coeff_" : String).length = 7 := rfl
  have e3 : (".csv" : String).length = 4 := rfl
  have e4 : ("_" : String).length = 1 := rfl
  have e5 : (".joblib" : String).length = 7 := rfl
  omega

/-- C9 counterexample: for an ensemble model the path returned by
`save_coefficients` (the coefficient-style CSV path) is not among
the files that call actually wrote (only the joblib artifact is). -/
theorem C9_ensemble_returns_unwritten_path :
    (save_coefficients .ensemble "models/production" "RandomForestRegressor"
        "20250101_000000").returned ∉
      (save_coefficients .ensemble "models/production" "RandomForestRegressor"
        "20250101_000000").written := by
  decide

/-- C9 amended: `save_coefficients` returns the coefficient-CSV
path unconditionally: for linear models that is the primary artifact
it wrote; for ensemble models the returned path is not among the
files written (the joblib artifact is the one actually written). -/
theorem C9_returned_path (dir name ts : String) :
    ((save_coefficients .linear dir name ts).returned =
        joinPath dir (coeff_filename name ts) ∧
      (save_coefficients .linear dir name ts).returned ∈
        (save_coefficients .linear dir name ts).written) ∧
    ((save_coefficients .ensemble dir name ts).returned =
        joinPath dir (coeff_filename name ts) ∧
      (save_coefficients .ensemble dir name ts).returned ∉
        (save_coefficients .ensemble dir name ts).written) := by
  refine ⟨⟨rfl, List.mem_cons_self _ _⟩, ⟨rfl, ?_⟩⟩
  intro hmem
  exact coeff_path_ne_joblib_path dir name ts (List.mem_singleton.mp hmem)

end GlucoseTrain
